import Mathlib

/-!
Shallow embedding of the batify2 battery monitor (src/battery.c, src/main.c).

The sysfs attribute directory of one battery is modelled as a partial map
from attribute file names to their text contents; `none` models a file whose
read fails (`g_file_get_contents` returning FALSE).

The two formulas that use IEEE `float` / `double` arithmetic
(`(guint64)(((float)now / full) * PERCENTAGE)` in `_get_battery_capacity`
and `(guint64)(HOUR * charge_now / current_now)` in `_get_battery_time`)
are modelled over exact rationals, parameterized by the rounding function
`rnd : ℚ → ℚ` that the hardware applies after every conversion and every
arithmetic operation (IEEE operations are correctly rounded exact results).
Theorems about these values either hold for every such `rnd`, or assume
only properties (monotonicity, exactness at the representable values
0, 1, 100) that IEEE round-to-nearest-even has at any width.
The final `(guint64)` cast is truncation toward zero, i.e. `Int.floor`
followed by `Int.toNat` on the nonnegative values arising in practice.
-/

namespace Batify

/-- 2^64, the modulus of `guint64` arithmetic. -/
def UINT64_MOD : ℕ := 18446744073709551616

/-- `g_ascii_isspace`: the six ASCII whitespace characters skipped by
`g_ascii_strtoull` before the number. -/
def gAsciiIsspace (c : Char) : Bool :=
  c == ' ' || c == '\t' || c == '\n' || c == '\x0b' || c == '\x0c' || c == '\r'

/-- Numeric value of a list of decimal digit characters, most significant
first, computed exactly (no wraparound). -/
def digitsVal (ds : List Char) : ℕ :=
  ds.foldl (fun a c => a * 10 + (c.toNat - 48)) 0

/-- Model of GLib `g_ascii_strtoull` at base 10, as called by
`_get_sysattr_int` (src/battery.c line 59).  Returns the converted
`guint64` value together with the `errno == ERANGE` flag.  Following the
GLib implementation (`g_parse_long_long`): leading ASCII whitespace is
skipped, one optional sign is consumed, the digit run is converted; if the
exact magnitude exceeds `G_MAXUINT64` the magnitude is clamped to
`G_MAXUINT64` and `errno` is set to `ERANGE`; a leading minus sign negates
the result in `guint64` arithmetic (wraparound); a string with no digits
converts to 0 with no error. -/
def g_ascii_strtoull (s : String) : ℕ × Bool :=
  let cs := s.toList.dropWhile (fun c => gAsciiIsspace c)
  let neg := cs.head? == some '-'
  let cs2 := match cs with
    | '-' :: rest => rest
    | '+' :: rest => rest
    | _ => cs
  let m := digitsVal (cs2.takeWhile Char.isDigit)
  let raw := if UINT64_MOD ≤ m then UINT64_MOD - 1 else m
  let value := if neg then (UINT64_MOD - raw) % UINT64_MOD else raw
  (value, UINT64_MOD ≤ m)

/-- The sysfs attribute directory of one battery: attribute file name ↦
file contents.  `none` models a read failure. -/
def Sysfs : Type := String → Option String

/-- The failures of the metric-reading layer.  `ioError` stands for a
`GError` produced by `g_file_get_contents`; `parseError` for the
`BATTERY_ERROR` with the `errno` code set at src/battery.c line 62;
`invalidStatus` for `BATTERY_INVALID_STATUS` (src/battery.c line 266). -/
inductive BatteryError where
  | ioError : BatteryError
  | parseError : String → BatteryError
  | invalidStatus : BatteryError
  deriving DecidableEq, Repr

/-- `_get_sysattr_string` (src/battery.c lines 37–44): read one attribute
file of the battery. -/
def get_sysattr_string (sysfs : Sysfs) (sys_attr : String) : Except BatteryError String :=
  match sysfs sys_attr with
  | none => .error .ioError
  | some s => .ok s

/-- `_get_sysattr_int` (src/battery.c lines 46–73): read an attribute file
and convert its text with `g_ascii_strtoull`, treating the conversion as
failed exactly when `errno` was set (i.e. only on `ERANGE`). -/
def get_sysattr_int (sysfs : Sysfs) (sys_attr : String) : Except BatteryError ℕ :=
  match get_sysattr_string sysfs sys_attr with
  | .error e => .error e
  | .ok s =>
    let r := g_ascii_strtoull s
    if r.2 then .error (.parseError s) else .ok r.1

/-- `BATTERY_STATUS` (src/battery.h lines 31–38). -/
inductive BATTERY_STATUS where
  | unknown : BATTERY_STATUS
  | discharging : BATTERY_STATUS
  | notCharging : BATTERY_STATUS
  | charging : BATTERY_STATUS
  | charged : BATTERY_STATUS
  deriving DecidableEq, Repr

/-- `get_battery_status` (src/battery.c lines 129–155): read the raw
status string and classify it by case-sensitive leading-substring match in
the source's fixed priority order. -/
def get_battery_status (sysfs : Sysfs) : Except BatteryError BATTERY_STATUS :=
  match get_sysattr_string sysfs "status" with
  | .error e => .error e
  | .ok s =>
    .ok (if s.startsWith "Charging" then .charging
      else if s.startsWith "Discharging" then .discharging
      else if s.startsWith "Not charging" then .notCharging
      else if s.startsWith "Full" then .charged
      else .unknown)

/-- The value computed at src/battery.c line 182:
`(guint64)(((float)now / full) * PERCENTAGE)` with `PERCENTAGE = 100`,
over exact rationals with the `float` rounding `rnd` applied after each
conversion and operation, and the cast modelled as `Int.floor`.
For `full = 0` the C expression divides by zero (the model's value is the
Lean convention `x / 0 = 0` and is not meaningful there; the surrounding
control flow, which is what the theorems about that case use, is faithful:
no error branch exists). -/
def capacityCalc (rnd : ℚ → ℚ) (now full : ℕ) : ℤ :=
  Int.floor (rnd (rnd (rnd (now : ℚ) / rnd (full : ℚ)) * rnd 100))

/-- `_get_battery_capacity` (src/battery.c lines 157–184): read the
scheme-selected now/full attributes and compute the percentage.  There is
no `full == 0` check in the source; every pair of successful reads reaches
the division and returns success. -/
def _get_battery_capacity (rnd : ℚ → ℚ) (sysfs : Sysfs)
    (now_filename full_filename : String) : Except BatteryError ℕ := do
  let now ← get_sysattr_int sysfs now_filename
  let full ← get_sysattr_int sysfs full_filename
  return (capacityCalc rnd now full).toNat

/-- `get_battery_capacity` (src/battery.c lines 206–219): try the direct
`capacity` attribute first (its failure is discarded, `error = NULL`);
otherwise fall back to the scheme-selected computed path. -/
def get_battery_capacity (rnd : ℚ → ℚ) (sysfs : Sysfs) (use_charge : Bool) :
    Except BatteryError ℕ :=
  match get_sysattr_int sysfs "capacity" with
  | .ok v => .ok v
  | .error _ =>
    if use_charge then
      _get_battery_capacity rnd sysfs "charge_now" "charge_full"
    else
      _get_battery_capacity rnd sysfs "energy_now" "energy_full"

/-- The value computed at src/battery.c lines 259 and 263:
`(guint64)(HOUR * amount / rate)` with `HOUR = 3600.0`, over exact
rationals with the `double` rounding `rnd` applied after each conversion
and operation, and the cast modelled as `Int.floor`.  For `rate = 0` the C
expression divides by zero (the model's value is the Lean convention
`x / 0 = 0` and is not meaningful there; the control flow is faithful: no
`rate == 0` guard exists in the source). -/
def timeCalc (rnd : ℚ → ℚ) (amount rate : ℕ) : ℤ :=
  Int.floor (rnd (rnd (rnd 3600 * rnd (amount : ℚ)) / rnd (rate : ℚ)))

/-- `_get_battery_time` (src/battery.c lines 221–270): read the
scheme-selected now/full/rate attributes, then switch on the status.  The
`charge_full - charge_now` subtraction is `guint64` wraparound
subtraction.  The `default` arm (only `UNKNOWN_STATUS` remains) fails with
`BATTERY_INVALID_STATUS`. -/
def _get_battery_time (rnd : ℚ → ℚ) (sysfs : Sysfs)
    (now_filename full_filename power_filename : String)
    (status : BATTERY_STATUS) : Except BatteryError ℕ := do
  let charge_now ← get_sysattr_int sysfs now_filename
  let charge_full ← get_sysattr_int sysfs full_filename
  let current_now ← get_sysattr_int sysfs power_filename
  match status with
  | .discharging | .notCharging =>
    return (timeCalc rnd charge_now current_now).toNat
  | .charging | .charged =>
    return (timeCalc rnd ((charge_full + UINT64_MOD - charge_now) % UINT64_MOD) current_now).toNat
  | .unknown => .error .invalidStatus

/-- `get_battery_time` (src/battery.c lines 305–314): dispatch on the
device's metric scheme. -/
def get_battery_time (rnd : ℚ → ℚ) (sysfs : Sysfs) (use_charge : Bool)
    (status : BATTERY_STATUS) : Except BatteryError ℕ :=
  if use_charge then
    _get_battery_time rnd sysfs "charge_now" "charge_full" "current_now" status
  else
    _get_battery_time rnd sysfs "energy_now" "energy_full" "power_now" status

/-- `BATTERY_LEVEL` (src/main.c lines 29–33). -/
inductive BATTERY_LEVEL where
  | low : BATTERY_LEVEL
  | critical : BATTERY_LEVEL
  deriving DecidableEq, Repr

/-- One notification emitted by the handler: either
`battery_status_notification` or `battery_level_notification`
(src/main.c lines 184–223), recorded with its arguments. -/
inductive Alert where
  | statusAlert (status : BATTERY_STATUS) (percent : ℕ) (seconds : ℕ) : Alert
  | levelAlert (level : BATTERY_LEVEL) (percent : ℕ) (seconds : ℕ) : Alert
  deriving DecidableEq, Repr

/-- The three threshold fields of `struct config` (src/main.c lines
35–45) as seen by `battery_handler`.  In the C comparisons the `gint`
config values are converted to `guint64` (the other operand's type), so
the handler sees the converted nonnegative values; the fields here are
those converted values. -/
structure Config where
  low_level : ℕ
  critical_level : ℕ
  full_capacity : ℕ
  deriving DecidableEq, Repr

/-- The per-device watcher state, `struct _Context` (src/main.c lines
47–54), without the collaborator handles (`battery`, `notification`).
`prev_status` is `none` for the sentinel value 0 set by `context_init`,
which compares unequal to every `BATTERY_STATUS` value. -/
structure Context where
  prev_status : Option BATTERY_STATUS
  low_level_notified : Bool
  critical_level_notified : Bool
  deriving DecidableEq, Repr

/-- `context_init` (src/main.c lines 58–68): sentinel previous status,
both debounce flags false. -/
def context_init : Context :=
  { prev_status := none, low_level_notified := false, critical_level_notified := false }

/-- The outcomes of the (at most) three metric reads a single
`battery_handler` tick can perform.  Each field is the result the
corresponding `get_battery_*` call would produce this tick; a field is
examined only if the handler actually performs that read. -/
structure TickReads where
  status : Except BatteryError BATTERY_STATUS
  capacity : Except BatteryError ℕ
  time : Except BatteryError ℕ

/-- What one `battery_handler` call produces: the updated watcher state,
the notifications shown (in order), and the returned boolean
(`G_SOURCE_CONTINUE = true`, `G_SOURCE_REMOVE = false`). -/
structure HandlerResult where
  ctx : Context
  alerts : List Alert
  source_continue : Bool
  deriving DecidableEq, Repr

/-- The shared `DISCHARGING_STATUS` / `NOT_CHARGING_STATUS` arm of
`battery_handler` (src/main.c lines 288–321): capacity read failure
returns with the state untouched; a time read failure is logged and
`seconds` set to 0; then the edge-triggered status alert, the critical
`if`, and the low `if` run in order (the low `if` reads the flags as
mutated by the critical `if`), and `prev_status` is updated. -/
def dischargeTick (config : Config) (context : Context) (status : BATTERY_STATUS)
    (reads : TickReads) : HandlerResult :=
  match reads.capacity with
  | .error _ => ⟨context, [], true⟩
  | .ok capacity =>
    let seconds := match reads.time with
      | .error _ => 0
      | .ok s => s
    let statusAlerts :=
      if context.prev_status ≠ some status then
        [Alert.statusAlert status capacity seconds]
      else []
    let step1 :=
      if context.critical_level_notified = false ∧ capacity ≤ config.critical_level then
        ({ context with low_level_notified := false, critical_level_notified := true },
          [Alert.levelAlert .critical capacity seconds])
      else (context, [])
    let context1 := step1.1
    let step2 :=
      if context1.low_level_notified = false ∧ config.critical_level < capacity
          ∧ capacity ≤ config.low_level then
        ({ context1 with low_level_notified := true, critical_level_notified := false },
          [Alert.levelAlert .low capacity seconds])
      else (context1, [])
    ⟨{ step2.1 with prev_status := some status }, statusAlerts ++ step1.2 ++ step2.2, true⟩

/-- `battery_handler` (src/main.c lines 225–325): one poll tick of one
watched device.  A status read failure logs and returns
`G_SOURCE_CONTINUE` with the state untouched.  The `UNKNOWN_STATUS`,
`CHARGED_STATUS` and `CHARGING_STATUS` arms clear both debounce flags
first; their later capacity-read failures return with those flags already
cleared and `prev_status` not yet updated.  Every return path yields
`G_SOURCE_CONTINUE`. -/
def battery_handler (config : Config) (context : Context) (reads : TickReads) :
    HandlerResult :=
  match reads.status with
  | .error _ => ⟨context, [], true⟩
  | .ok status =>
    match status with
    | .unknown =>
      let context := { context with low_level_notified := false, critical_level_notified := false }
      if context.prev_status = some BATTERY_STATUS.unknown then
        ⟨{ context with prev_status := some .unknown }, [], true⟩
      else
        match reads.capacity with
        | .error _ => ⟨context, [], true⟩
        | .ok capacity =>
          let alerts :=
            if config.full_capacity ≤ capacity then
              [Alert.statusAlert .charged capacity 0]
            else []
          ⟨{ context with prev_status := some .unknown }, alerts, true⟩
    | .charged =>
      let context := { context with low_level_notified := false, critical_level_notified := false }
      let alerts :=
        if context.prev_status ≠ some BATTERY_STATUS.charged then
          [Alert.statusAlert .charged 100 0]
        else []
      ⟨{ context with prev_status := some .charged }, alerts, true⟩
    | .charging =>
      let context := { context with low_level_notified := false, critical_level_notified := false }
      if context.prev_status = some BATTERY_STATUS.charging then
        ⟨{ context with prev_status := some .charging }, [], true⟩
      else
        match reads.capacity with
        | .error _ => ⟨context, [], true⟩
        | .ok capacity =>
          let seconds := match reads.time with
            | .error _ => 0
            | .ok s => s
          ⟨{ context with prev_status := some .charging },
            [Alert.statusAlert .charging capacity seconds], true⟩
    | .discharging => dischargeTick config context .discharging reads
    | .notCharging => dischargeTick config context .notCharging reads

/-- Iterate `battery_handler` over a sequence of poll ticks, keeping the
watcher state. -/
def run_handler (config : Config) (context : Context) (ticks : List TickReads) : Context :=
  ticks.foldl (fun c r => (battery_handler config c r).ctx) context

/-- Is this alert a level (low/critical) alert, as opposed to a status
alert? -/
def isLevelAlert : Alert → Bool
  | .levelAlert _ _ _ => true
  | .statusAlert _ _ _ => false

/-- The level alerts among a tick's notifications, in emission order. -/
def levelAlerts (alerts : List Alert) : List Alert :=
  alerts.filter isLevelAlert

/-- The mutual-exclusion invariant of the two debounce flags: at most one
of them is true. -/
def flagsMutex (context : Context) : Prop :=
  context.low_level_notified = false ∨ context.critical_level_notified = false

/-- The validation performed by `options_init` (src/main.c lines
416–437), over the `gint` config fields: each percentage must be in
[0, 100], `low_level` must not be below `critical_level`, and
`full_capacity` must not be below `critical_level`.  (There is no check
relating `low_level` and `full_capacity`.) -/
def options_validate (low_level critical_level full_capacity : ℤ) : Bool :=
  if low_level < 0 ∨ low_level > 100 then false
  else if critical_level < 0 ∨ critical_level > 100 then false
  else if full_capacity < 0 ∨ full_capacity > 100 then false
  else if low_level < critical_level then false
  else if full_capacity < critical_level then false
  else true

/-- `g_hash_table_lookup` on the watcher table, modelled as an
association list from serial-number string to timer tag. -/
def lookupSerial : List (String × ℕ) → String → Option ℕ
  | [], _ => none
  | (k, v) :: rest, s => if k = s then some v else lookupSerial rest s

/-- The "Create watchers" loop of `batteries_supply_handler` (src/main.c
lines 364–376): for each enumerated battery, in order, look its serial
number up in the watcher table; only when absent does `add_watcher` run
(modelled by consuming the next fresh timer tag) and the pair get
inserted.  Returns the table, the next fresh tag, and the serials for
which `add_watcher` ran, in order. -/
def create_watchers (watchers : List (String × ℕ)) (tag : ℕ) :
    List String → List (String × ℕ) × ℕ × List String
  | [] => (watchers, tag, [])
  | serial :: rest =>
    match lookupSerial watchers serial with
    | some _ => create_watchers watchers tag rest
    | none =>
      let r := create_watchers (watchers ++ [(serial, tag)]) (tag + 1) rest
      (r.1, r.2.1, serial :: r.2.2)

/-- The "Remove old watchers" loop of `batteries_supply_handler`
(src/main.c lines 378–390): every table entry whose serial is not among
this tick's enumerated serials is removed (and its timer cancelled). -/
def remove_watchers (watchers : List (String × ℕ)) (serials : List String) :
    List (String × ℕ) :=
  watchers.filter (fun p => serials.contains p.1)

/-- One successful discovery tick of `batteries_supply_handler`
(src/main.c lines 346–394): the add loop followed by the remove loop.
Returns the table, the next fresh tag, and the serials for which
`add_watcher` ran. -/
def batteries_supply_handler (watchers : List (String × ℕ)) (tag : ℕ)
    (serials : List String) : List (String × ℕ) × ℕ × List String :=
  let r := create_watchers watchers tag serials
  (remove_watchers r.1 serials, r.2.1, r.2.2)

/-- The serial numbers currently holding a watcher. -/
def watcherKeys (watchers : List (String × ℕ)) : List String :=
  watchers.map Prod.fst

/-- A poll tick on which all three metric reads succeed, with the given
status and capacity and an (unused in the scenarios below) time of 0. -/
def pollTick (status : BATTERY_STATUS) (capacity : ℕ) : TickReads :=
  ⟨.ok status, .ok capacity, .ok 0⟩

/-- The thresholds of the spec's scenarios (and the source's defaults):
low level 20, critical level 10, full capacity 98. -/
def stdConfig : Config := ⟨20, 10, 98⟩

/-- The handler results of the threshold-crossing scenario: capacities
25, 15, 5 on consecutive ticks while Discharging, starting from a fresh
context. -/
def crossing25 : HandlerResult :=
  battery_handler stdConfig context_init (pollTick .discharging 25)

/-- Second tick of the threshold-crossing scenario. -/
def crossing15 : HandlerResult :=
  battery_handler stdConfig crossing25.ctx (pollTick .discharging 15)

/-- Third tick of the threshold-crossing scenario. -/
def crossing5 : HandlerResult :=
  battery_handler stdConfig crossing15.ctx (pollTick .discharging 5)

/-- First tick of the idempotence scenario: (Discharging, capacity 15)
from a fresh context. -/
def repeat15a : HandlerResult :=
  battery_handler stdConfig context_init (pollTick .discharging 15)

/-- Second tick of the idempotence scenario: the same poll result again. -/
def repeat15b : HandlerResult :=
  battery_handler stdConfig repeat15a.ctx (pollTick .discharging 15)

/-- Fixture for the computed capacity path with a zero full value: the
direct `capacity` attribute is missing, `charge_now` reads 500,
`charge_full` reads 0. -/
def fullZeroSysfs : Sysfs := fun a =>
  if a = "charge_now" then some "500\n"
  else if a = "charge_full" then some "0\n"
  else none

/-- Fixture for a zero rate on the charge scheme: `current_now` reads 0. -/
def zeroRateSysfs : Sysfs := fun a =>
  if a = "charge_now" then some "1000\n"
  else if a = "charge_full" then some "2000\n"
  else if a = "current_now" then some "0\n"
  else none

/-- Fixture with non-numeric (`capacity`) and negative (`charge_now`)
attribute file contents. -/
def badTextSysfs : Sysfs := fun a =>
  if a = "capacity" then some "abc\n"
  else if a = "charge_now" then some "-5\n"
  else none

/-! Helper lemmas about the discharge arm, the handler, and the watcher
table, shared by the claim theorems below. -/

/-- The discharge arm preserves the debounce-flag mutual exclusion. -/
theorem dischargeTick_flagsMutex (config : Config) (context : Context)
    (status : BATTERY_STATUS) (reads : TickReads) (h : flagsMutex context) :
    flagsMutex (dischargeTick config context status reads).ctx := by
  unfold dischargeTick
  cases hc : reads.capacity with
  | error e => exact h
  | ok capacity =>
    simp only [flagsMutex]
    split_ifs <;> simp_all [flagsMutex]

/-- One handler tick preserves the debounce-flag mutual exclusion, from
any state, for any config and any read outcomes. -/
theorem battery_handler_flagsMutex (config : Config) (context : Context)
    (reads : TickReads) (h : flagsMutex context) :
    flagsMutex (battery_handler config context reads).ctx := by
  unfold battery_handler
  cases hs : reads.status with
  | error e => exact h
  | ok status =>
    cases status with
    | discharging => exact dischargeTick_flagsMutex config context .discharging reads h
    | notCharging => exact dischargeTick_flagsMutex config context .notCharging reads h
    | unknown =>
      simp only [flagsMutex]
      split_ifs <;> cases hc : reads.capacity <;> simp [flagsMutex]
    | charged => simp [flagsMutex]
    | charging =>
      simp only [flagsMutex]
      split_ifs <;> cases hc : reads.capacity <;> simp [flagsMutex]

/-- Any run of handler ticks preserves the debounce-flag mutual
exclusion. -/
theorem run_handler_flagsMutex (config : Config) (ticks : List TickReads)
    (context : Context) (h : flagsMutex context) :
    flagsMutex (run_handler config context ticks) := by
  induction ticks generalizing context with
  | nil => exact h
  | cons r rest ih => exact ih _ (battery_handler_flagsMutex config context r h)

/-- Characterization of `options_validate`: it accepts exactly the
configurations with every percentage in [0, 100], critical ≤ low and
critical ≤ full capacity. -/
theorem options_validate_iff (low_level critical_level full_capacity : ℤ) :
    options_validate low_level critical_level full_capacity = true ↔
      (0 ≤ low_level ∧ low_level ≤ 100 ∧ 0 ≤ critical_level ∧ critical_level ≤ 100
        ∧ 0 ≤ full_capacity ∧ full_capacity ≤ 100
        ∧ critical_level ≤ low_level ∧ critical_level ≤ full_capacity) := by
  unfold options_validate
  split_ifs <;> simp_all <;> omega

/-- A serial is absent from the watcher table exactly when the lookup
returns nothing. -/
theorem lookupSerial_eq_none_iff (ws : List (String × ℕ)) (s : String) :
    lookupSerial ws s = none ↔ s ∉ watcherKeys ws := by
  induction ws with
  | nil => simp [lookupSerial, watcherKeys]
  | cons p rest ih =>
    obtain ⟨k, v⟩ := p
    by_cases hk : k = s
    · subst hk
      simp [lookupSerial, watcherKeys]
    · simp only [lookupSerial, if_neg hk, watcherKeys, List.map_cons] at ih ⊢
      rw [ih]
      simp only [List.mem_cons, not_or]
      constructor
      · intro h
        exact ⟨fun he => hk he.symm, h⟩
      · exact fun h => h.2

/-- A successful lookup stays successful after the table grows. -/
theorem lookupSerial_append_left (ws l : List (String × ℕ)) (s : String)
    (h : lookupSerial ws s ≠ none) :
    lookupSerial (ws ++ l) s ≠ none := by
  induction ws with
  | nil => simp [lookupSerial] at h
  | cons p rest ih =>
    obtain ⟨k, v⟩ := p
    by_cases hk : k = s <;> simp [lookupSerial, hk] at *
    · exact ih h

/-- Inserting an absent serial at the end of the table makes its lookup
succeed. -/
theorem lookupSerial_append_self (ws : List (String × ℕ)) (s : String) (t : ℕ)
    (h : lookupSerial ws s = none) :
    lookupSerial (ws ++ [(s, t)]) s = some t := by
  induction ws with
  | nil => simp [lookupSerial]
  | cons p rest ih =>
    obtain ⟨k, v⟩ := p
    by_cases hk : k = s <;> simp [lookupSerial, hk] at *
    · exact ih h

/-- A serial already present in the watcher table is never handed to
`add_watcher` by the create loop. -/
theorem create_watchers_no_readd (serials : List String) (ws : List (String × ℕ))
    (tag : ℕ) (s : String) (h : lookupSerial ws s ≠ none) :
    s ∉ (create_watchers ws tag serials).2.2 := by
  induction serials generalizing ws tag with
  | nil => simp [create_watchers]
  | cons s' rest ih =>
    unfold create_watchers
    cases hl : lookupSerial ws s' with
    | some v => exact ih ws tag h
    | none =>
      simp only [List.mem_cons, not_or]
      constructor
      · rintro rfl; exact h hl
      · exact ih _ (tag + 1) (lookupSerial_append_left ws [(s', tag)] s h)

/-- Within one discovery tick, `add_watcher` runs at most once per serial
string, even when the enumeration repeats a serial. -/
theorem create_watchers_added_nodup (serials : List String)
    (ws : List (String × ℕ)) (tag : ℕ) :
    (create_watchers ws tag serials).2.2.Nodup := by
  induction serials generalizing ws tag with
  | nil => simp [create_watchers]
  | cons s' rest ih =>
    unfold create_watchers
    cases hl : lookupSerial ws s' with
    | some v => exact ih ws tag
    | none =>
      refine List.nodup_cons.mpr ⟨?_, ih _ (tag + 1)⟩
      exact create_watchers_no_readd rest _ (tag + 1) s'
        (by rw [lookupSerial_append_self ws s' tag hl]; simp)

/-- The create loop keeps the watcher-table keys duplicate-free. -/
theorem create_watchers_keys_nodup (serials : List String)
    (ws : List (String × ℕ)) (tag : ℕ) (h : (watcherKeys ws).Nodup) :
    (watcherKeys (create_watchers ws tag serials).1).Nodup := by
  induction serials generalizing ws tag with
  | nil => simpa [create_watchers]
  | cons s' rest ih =>
    unfold create_watchers
    cases hl : lookupSerial ws s' with
    | some v => exact ih ws tag h
    | none =>
      refine ih _ (tag + 1) ?_
      have hs : s' ∉ watcherKeys ws := (lookupSerial_eq_none_iff ws s').mp hl
      have hkeys : watcherKeys (ws ++ [(s', tag)]) = watcherKeys ws ++ [s'] := by
        simp [watcherKeys]
      rw [hkeys]
      exact List.Nodup.append h (List.nodup_singleton s')
        (by simpa [List.disjoint_singleton] using hs)

/-- The remove loop keeps the watcher-table keys duplicate-free. -/
theorem remove_watchers_keys_nodup (ws : List (String × ℕ)) (serials : List String)
    (h : (watcherKeys ws).Nodup) :
    (watcherKeys (remove_watchers ws serials)).Nodup := by
  have hsub : (watcherKeys (remove_watchers ws serials)).Sublist (watcherKeys ws) :=
    (List.filter_sublist ws).map Prod.fst
  exact h.sublist hsub

/-! The claim theorems. -/

/-- Claim C1 counterexample: the claim says that whenever a read of
status, capacity or time fails during a tick the watcher state is
completely unchanged.  At the concrete state (previous status
Discharging, low-level flag set) a tick that reads status Unknown and
then suffers a capacity read failure leaves a DIFFERENT state: the
handler clears both debounce flags before attempting the capacity read,
so the low-level flag is lost although the tick was abandoned. -/
theorem claim_C1_counterexample :
    (battery_handler stdConfig ⟨some .discharging, true, false⟩
        ⟨.ok .unknown, .error .ioError, .ok 0⟩).ctx
      ≠ ⟨some .discharging, true, false⟩ := by decide

/-- Claim C1 (amended): a failed status read abandons the tick with the
state completely unchanged; a failed capacity read on the
Discharging/NotCharging arm likewise; a failed capacity read on the
Unknown or Charging arm abandons the tick with `prev_status` unchanged
and no alert, but with both debounce flags already cleared; a failed
time read does not abandon the tick at all — it behaves exactly as a
successful read of 0 seconds.  Every such path emits no alert (the
time-failure path emits what the 0-second tick emits) and returns
`G_SOURCE_CONTINUE`, so the watcher is never cancelled. -/
theorem claim_C1 :
    (∀ (config : Config) (context : Context) (e : BatteryError)
        (cap t : Except BatteryError ℕ),
        battery_handler config context ⟨.error e, cap, t⟩ = ⟨context, [], true⟩)
    ∧ (∀ (config : Config) (context : Context) (e : BatteryError)
        (t : Except BatteryError ℕ),
        battery_handler config context ⟨.ok .discharging, .error e, t⟩ = ⟨context, [], true⟩)
    ∧ (∀ (config : Config) (context : Context) (e : BatteryError)
        (t : Except BatteryError ℕ),
        battery_handler config context ⟨.ok .notCharging, .error e, t⟩ = ⟨context, [], true⟩)
    ∧ (∀ (config : Config) (context : Context) (e : BatteryError)
        (t : Except BatteryError ℕ), context.prev_status ≠ some .unknown →
        battery_handler config context ⟨.ok .unknown, .error e, t⟩ =
          ⟨{ context with low_level_notified := false, critical_level_notified := false },
            [], true⟩)
    ∧ (∀ (config : Config) (context : Context) (e : BatteryError)
        (t : Except BatteryError ℕ), context.prev_status ≠ some .charging →
        battery_handler config context ⟨.ok .charging, .error e, t⟩ =
          ⟨{ context with low_level_notified := false, critical_level_notified := false },
            [], true⟩)
    ∧ (∀ (config : Config) (context : Context) (status : BATTERY_STATUS)
        (cap : ℕ) (e : BatteryError),
        battery_handler config context ⟨.ok status, .ok cap, .error e⟩ =
          battery_handler config context ⟨.ok status, .ok cap, .ok 0⟩) :=
  ⟨fun _ _ _ _ _ => rfl,
   fun _ _ _ _ => rfl,
   fun _ _ _ _ => rfl,
   fun _ context _ _ h => by simp [battery_handler, h],
   fun _ context _ _ h => by simp [battery_handler, h],
   fun _ _ status _ _ => by cases status <;> simp [battery_handler, dischargeTick]⟩

/-- Witness for Claim C1 at concrete inputs: the Unknown-arm capacity
failure clears the flags but keeps `prev_status`, and a status read
failure keeps the whole state. -/
theorem claim_C1_witness :
    battery_handler stdConfig ⟨some .discharging, true, false⟩
        ⟨.ok .unknown, .error .ioError, .ok 0⟩ =
      ⟨⟨some .discharging, false, false⟩, [], true⟩
    ∧ battery_handler stdConfig ⟨some .discharging, true, false⟩
        ⟨.error .ioError, .ok 15, .ok 0⟩ =
      ⟨⟨some .discharging, true, false⟩, [], true⟩ :=
  ⟨claim_C1.2.2.2.1 stdConfig ⟨some .discharging, true, false⟩ .ioError (.ok 0) (by decide),
   claim_C1.1 stdConfig ⟨some .discharging, true, false⟩ .ioError (.ok 15) (.ok 0)⟩

/-- Claim C2 (code bug): with the direct `capacity` attribute absent and
the scheme-selected full attribute reading 0, `get_battery_capacity`
does NOT fail: no `full == 0` check and no `InvalidFullCapacityError`
exist anywhere in the source, the float division by zero is reached and
a success value is returned, whatever the float semantics `rnd` is. -/
theorem claim_C2 (rnd : ℚ → ℚ) :
    get_battery_capacity rnd fullZeroSysfs true = .ok (capacityCalc rnd 500 0).toNat := rfl

/-- Claim C3 (code bug): with the scheme-selected rate attribute reading
0, `get_battery_time` does NOT return 0 for every status: no `rate == 0`
guard exists in the source.  For status Unknown it returns the
`BATTERY_INVALID_STATUS` error (the claim says every status yields 0,
not an error), and for Discharging it reaches the division by the zero
rate and returns its cast (in the C original, a `double` division by
zero whose `guint64` cast is undefined), whatever the float semantics
`rnd` is. -/
theorem claim_C3 (rnd : ℚ → ℚ) :
    get_battery_time rnd zeroRateSysfs true .unknown = .error .invalidStatus
    ∧ get_battery_time rnd zeroRateSysfs true .discharging =
        .ok (timeCalc rnd 1000 0).toNat :=
  ⟨rfl, rfl⟩

/-- Claim C4 (code bug): the numeric attribute read does not reject
non-numeric or negative content.  `_get_sysattr_int` checks only
`errno`, which `g_ascii_strtoull` sets only on out-of-range magnitude:
the content "abc" silently converts to 0 and succeeds, and the content
"-5" silently wraps to 2^64 - 5 and succeeds, exactly what the claim
says never happens. -/
theorem claim_C4 :
    get_sysattr_int badTextSysfs "capacity" = .ok 0
    ∧ get_sysattr_int badTextSysfs "charge_now" = .ok (UINT64_MOD - 5) :=
  ⟨rfl, rfl⟩

/-- Claim C5 counterexample: the configuration low = 50, critical = 10,
full capacity = 30 is accepted by `options_init` although it violates
the claimed constraint lowLevelPercent ≤ fullCapacityPercent, so the
claimed "if and only if" is false. -/
theorem claim_C5_counterexample :
    options_validate 50 10 30 = true ∧ ¬ ((50 : ℤ) ≤ 30) := by decide

/-- Claim C5 (amended): config validation accepts a configuration if and
only if every percentage option is in [0, 100], criticalLevelPercent ≤
lowLevelPercent and criticalLevelPercent ≤ fullCapacityPercent — the
relation between lowLevelPercent and fullCapacityPercent is not checked.
In particular it rejects criticalLevel = 30, lowLevel = 20 and accepts
criticalLevel = 10, lowLevel = 20, fullCapacity = 98. -/
theorem claim_C5 :
    (∀ low_level critical_level full_capacity : ℤ,
      options_validate low_level critical_level full_capacity = true ↔
        (0 ≤ low_level ∧ low_level ≤ 100 ∧ 0 ≤ critical_level ∧ critical_level ≤ 100
          ∧ 0 ≤ full_capacity ∧ full_capacity ≤ 100
          ∧ critical_level ≤ low_level ∧ critical_level ≤ full_capacity))
    ∧ options_validate 20 30 98 = false
    ∧ options_validate 20 10 98 = true :=
  ⟨options_validate_iff, by decide, by decide⟩

/-- Claim C6: with low level 20 and critical level 10, the capacity
sequence 25, 15, 5 on three consecutive Discharging ticks (all reads
succeeding) emits no level alert on the first tick, exactly one
low-level alert on the second, exactly one critical-level alert on the
third, and the low-level flag is reset to false when the critical alert
fires. -/
theorem claim_C6 :
    levelAlerts crossing25.alerts = []
    ∧ levelAlerts crossing15.alerts = [Alert.levelAlert .low 15 0]
    ∧ levelAlerts crossing5.alerts = [Alert.levelAlert .critical 5 0]
    ∧ crossing5.ctx.low_level_notified = false := by decide

/-- Claim C7: feeding the same (Discharging, capacity 15) poll result on
two consecutive ticks, with low level 20 and critical level 10, yields
exactly one low-level alert (on the first tick), no alert at all on the
second tick, and the low-level flag is true after both ticks. -/
theorem claim_C7 :
    levelAlerts repeat15a.alerts = [Alert.levelAlert .low 15 0]
    ∧ repeat15b.alerts = []
    ∧ repeat15a.ctx.low_level_notified = true
    ∧ repeat15b.ctx.low_level_notified = true := by decide

/-- Claim C8: at most one of the two debounce flags is ever true: the
initial state satisfies the mutual exclusion, every branch of the
per-tick handler preserves it (from any state, any config, any read
outcomes), and hence every state reachable from the initial state under
any sequence of poll ticks satisfies it. -/
theorem claim_C8 :
    flagsMutex context_init
    ∧ (∀ (config : Config) (context : Context) (reads : TickReads),
        flagsMutex context → flagsMutex (battery_handler config context reads).ctx)
    ∧ (∀ (config : Config) (ticks : List TickReads),
        flagsMutex (run_handler config context_init ticks)) :=
  ⟨Or.inl rfl,
   fun config context reads h => battery_handler_flagsMutex config context reads h,
   fun config ticks => run_handler_flagsMutex config ticks context_init (Or.inl rfl)⟩

/-- Witness for Claim C8 at a concrete input: one tick from the initial
state keeps the mutual exclusion. -/
theorem claim_C8_witness :
    flagsMutex (battery_handler stdConfig context_init (pollTick .discharging 15)).ctx :=
  claim_C8.2.1 stdConfig context_init (pollTick .discharging 15) (Or.inl rfl)

/-- Claim C9: for every float semantics `rnd` that is monotone and exact
on the representable values 0, 1 and 100 (IEEE round-to-nearest is), and
all unsigned `now ≤ full` with `full > 0`, the computed-path capacity
value is an integer between 0 and 100. -/
theorem claim_C9 (rnd : ℚ → ℚ) (hmono : Monotone rnd)
    (h0 : rnd 0 = 0) (h1 : rnd 1 = 1) (h100 : rnd 100 = 100)
    (now full : ℕ) (hle : now ≤ full) (hpos : 0 < full) :
    0 ≤ capacityCalc rnd now full ∧ capacityCalc rnd now full ≤ 100 := by
  unfold capacityCalc
  have hfull1 : (1 : ℚ) ≤ rnd full := by
    rw [← h1]
    exact hmono (by exact_mod_cast hpos)
  have hnow0 : (0 : ℚ) ≤ rnd now := by
    rw [← h0]
    exact hmono (by positivity)
  have hfullpos : (0 : ℚ) < rnd full := lt_of_lt_of_le one_pos hfull1
  have hq1 : rnd (now : ℚ) / rnd (full : ℚ) ≤ 1 := by
    rw [div_le_one hfullpos]
    exact hmono (by exact_mod_cast hle)
  have hq0 : 0 ≤ rnd (now : ℚ) / rnd (full : ℚ) := div_nonneg hnow0 hfullpos.le
  have h2a : (0 : ℚ) ≤ rnd (rnd (now : ℚ) / rnd (full : ℚ)) := by
    rw [← h0]; exact hmono hq0
  have h2b : rnd (rnd (now : ℚ) / rnd (full : ℚ)) ≤ 1 := by
    rw [← h1]; exact hmono hq1
  have h3a : (0 : ℚ) ≤ rnd (rnd (now : ℚ) / rnd (full : ℚ)) * rnd 100 := by
    rw [h100]; positivity
  have h3b : rnd (rnd (now : ℚ) / rnd (full : ℚ)) * rnd 100 ≤ 100 := by
    rw [h100]; nlinarith
  have h4a : (0 : ℚ) ≤ rnd (rnd (rnd (now : ℚ) / rnd (full : ℚ)) * rnd 100) := by
    rw [← h0]; exact hmono h3a
  have h4b : rnd (rnd (rnd (now : ℚ) / rnd (full : ℚ)) * rnd 100) ≤ 100 :=
    (hmono h3b).trans (le_of_eq h100)
  constructor
  · exact Int.floor_nonneg.mpr h4a
  · calc Int.floor (rnd (rnd (rnd (now : ℚ) / rnd (full : ℚ)) * rnd 100))
        ≤ Int.floor (100 : ℚ) := Int.floor_le_floor h4b
    _ = 100 := by norm_num

/-- Witness for Claim C9 at a concrete input: exact arithmetic (the
identity rounding) with now = 1, full = 2. -/
theorem claim_C9_witness :
    0 ≤ capacityCalc id 1 2 ∧ capacityCalc id 1 2 ≤ 100 :=
  claim_C9 id monotone_id rfl rfl rfl 1 2 (by decide) (by decide)

/-- Claim C10: per discovery tick, at most one watcher exists per
serial-number string.  A serial already holding a watcher — including a
second battery enumerated with the same or an empty serial — is never
handed to `add_watcher` again; within one tick each serial gets at most
one watcher even when the enumeration repeats it; and the watcher
table's serial keys stay duplicate-free across the full
add-then-remove tick. -/
theorem claim_C10 :
    (∀ (watchers : List (String × ℕ)) (tag : ℕ) (serials : List String) (s : String),
        lookupSerial watchers s ≠ none →
          s ∉ (create_watchers watchers tag serials).2.2)
    ∧ (∀ (watchers : List (String × ℕ)) (tag : ℕ) (serials : List String),
        ((create_watchers watchers tag serials).2.2).Nodup)
    ∧ (∀ (watchers : List (String × ℕ)) (tag : ℕ) (serials : List String),
        (watcherKeys watchers).Nodup →
          (watcherKeys (batteries_supply_handler watchers tag serials).1).Nodup) :=
  ⟨fun ws tag serials s h => create_watchers_no_readd serials ws tag s h,
   fun ws tag serials => create_watchers_added_nodup serials ws tag,
   fun ws tag serials h =>
     remove_watchers_keys_nodup _ serials (create_watchers_keys_nodup serials ws tag h)⟩

/-- Witness for Claim C10 at a concrete input: with serial "SER1"
already watched, a tick enumerating "SER1" twice plus an empty serial
adds no second watcher for "SER1", runs `add_watcher` at most once per
serial, and keeps the table keys duplicate-free. -/
theorem claim_C10_witness :
    "SER1" ∉ (create_watchers [("SER1", 0)] 1 ["SER1", "SER1", ""]).2.2
    ∧ ((create_watchers [("SER1", 0)] 1 ["SER1", "SER1", ""]).2.2).Nodup
    ∧ (watcherKeys (batteries_supply_handler [("SER1", 0)] 1 ["SER1", "SER1", ""]).1).Nodup :=
  ⟨claim_C10.1 [("SER1", 0)] 1 ["SER1", "SER1", ""] "SER1" (by decide),
   claim_C10.2.1 [("SER1", 0)] 1 ["SER1", "SER1", ""],
   claim_C10.2.2 [("SER1", 0)] 1 ["SER1", "SER1", ""] (by decide)⟩

end Batify
